import Mathlib

/-!
# Certificate generation server (`index.js`)

A shallow embedding of the Express application of `index.js`: the CORS
middleware, `formatDate`, `readFileAsBase64`, `generateQRCodeBase64` and the
`POST /generate-certificate` handler, followed by theorems about them.

Conventions of the embedding

* A JavaScript string is the list of its UTF-16 code units (`JSString`); this
  is the unit on which `String.prototype.replace`, `split`, `padStart` and
  regular expressions without the `u` flag operate.
* A value taken from the parsed request body is a `JsonValue`; the code only
  observes such a value through `!v`, `typeof v === 'string'` and
  `v.toString()`, and these are what the type records.
* Calls into libraries (`fs`, `qrcode`, `ejs`, `puppeteer`) are looked up in an
  `Env`; every call and how it ended is appended to a trace. An awaited promise
  settles: it resolves or it rejects.
-/

namespace CertificateServer

/-! ## Strings -/

/-- A JavaScript string, as its sequence of UTF-16 code units. -/
abbrev JSString := List Nat

/-- The UTF-16 code units of one Unicode scalar value. -/
def codeUnits (c : Char) : List Nat :=
  if c.toNat < 0x10000 then [c.toNat]
  else [0xD800 + (c.toNat - 0x10000) / 0x400, 0xDC00 + (c.toNat - 0x10000) % 0x400]

/-- The JavaScript string denoted by a string literal. -/
def utf16 (s : String) : JSString := s.toList.flatMap codeUnits

/-- `String.prototype.replace(pattern, replacement)` for a pattern that is a
one-unit string: only the first occurrence is replaced. -/
def replaceFirst (pattern : Nat) (replacement : JSString) : JSString → JSString
  | [] => []
  | c :: cs => if c = pattern then replacement ++ cs else c :: replaceFirst pattern replacement cs

/-- `String.prototype.replace(regex, replacement)` for a global regular
expression that matches single code units (a character class): the string is
scanned left to right and every matching unit is replaced. -/
def replaceAllMatching (isMatch : Nat → Bool) (replacement : JSString) : JSString → JSString
  | [] => []
  | c :: cs =>
    if isMatch c then replacement ++ replaceAllMatching isMatch replacement cs
    else c :: replaceAllMatching isMatch replacement cs

/-- `String.prototype.split(separator)` for a one-unit separator. -/
def split (separator : Nat) : JSString → List JSString
  | [] => [[]]
  | c :: cs =>
    if c = separator then [] :: split separator cs
    else
      match split separator cs with
      | [] => [[c]]
      | piece :: pieces => (c :: piece) :: pieces

/-- `String.prototype.padStart(targetLength, padUnit)` for a one-unit pad string. -/
def padStart (targetLength : Nat) (padUnit : Nat) (s : JSString) : JSString :=
  List.replicate (targetLength - s.length) padUnit ++ s

/-! ## Values -/

/-- A thrown value, observed through its `message` property. -/
structure JsError where
  message : JSString
deriving DecidableEq, Repr

/-- The completion of a call, synchronous or awaited: a value, or a thrown error
(for an awaited promise, its rejection). -/
inductive Completion (α : Type) where
  | normal (value : α)
  | throw (error : JsError)
deriving DecidableEq, Repr

/-- A value of the parsed request body. A number is recorded by whether it is
zero and by its `toString()` text; an array or object by what calling its
`toString()` does. `undefined` is a property that is absent. -/
inductive JsonValue where
  | undefined
  | null
  | boolean (b : Bool)
  | number (isZero : Bool) (text : JSString)
  | string (s : JSString)
  | object (toStringResult : Completion JSString)
deriving DecidableEq, Repr

namespace JsonValue

/-- The value is truthy: `!v` is false. -/
def truthy : JsonValue → Bool
  | undefined => false
  | null => false
  | boolean b => b
  | number isZero _ => !isZero
  | string s => !s.isEmpty
  | object _ => true

/-- The method call `v.toString()`. -/
def toString : JsonValue → Completion JSString
  | undefined => .throw ⟨utf16 "Cannot read properties of undefined (reading \x27toString\x27)"⟩
  | null => .throw ⟨utf16 "Cannot read properties of null (reading \x27toString\x27)"⟩
  | boolean b => .normal (if b then utf16 "true" else utf16 "false")
  | number _ text => .normal text
  | string s => .normal s
  | object toStringResult => toStringResult

end JsonValue

/-- A number as returned by the getters of `Date`. -/
inductive JsNumber where
  | nan
  | int (i : Int)
deriving DecidableEq, Repr

/-- `String(n)`, also what a template literal interpolates. -/
def JsNumber.toJSString : JsNumber → JSString
  | .nan => utf16 "NaN"
  | .int i =>
    if i < 0 then 45 :: (Nat.toDigits 10 i.natAbs).map Char.toNat
    else (Nat.toDigits 10 i.natAbs).map Char.toNat

/-- The expression `n + 1`. -/
def JsNumber.succ : JsNumber → JsNumber
  | .nan => .nan
  | .int i => .int (i + 1)

/-- A `Date` instance, observed through its local-time getters: an invalid
date, or the day of the month, the month index (January is 0) and the year. -/
inductive JSDate where
  | invalid
  | valid (date : Int) (month : Int) (fullYear : Int)
deriving DecidableEq, Repr

namespace JSDate

def getDate : JSDate → JsNumber
  | invalid => .nan
  | valid date _ _ => .int date

def getMonth : JSDate → JsNumber
  | invalid => .nan
  | valid _ month _ => .int month

def getFullYear : JSDate → JsNumber
  | invalid => .nan
  | valid _ _ fullYear => .int fullYear

end JSDate

/-- What `formatDate` can be called with: a value of the request body, or a
`Date` instance. -/
inductive DateArg where
  | value (v : JsonValue)
  | dateObject (d : JSDate)
deriving DecidableEq, Repr

/-- The clock and the date parser of the host. -/
structure Clock where
  /-- The expression `new Date()`. -/
  now : JSDate
  /-- The expression `new Date(string)`. -/
  parse : JSString → JSDate

/-- `formatDate(date)`, lines 45-59. -/
def formatDate (clock : Clock) (date : DateArg) : Completion JSString :=
  let date : DateArg :=
    match date with
    | .value v => if !v.truthy then .dateObject clock.now else .value v
    | .dateObject d => .dateObject d
  let date : DateArg :=
    match date with
    | .value (.string s) => .dateObject (clock.parse s)
    | other => other
  match date with
  | .dateObject d =>
    let day := padStart 2 48 d.getDate.toJSString
    let month := padStart 2 48 d.getMonth.succ.toJSString
    let year := d.getFullYear
    .normal (day ++ utf16 "." ++ month ++ utf16 "." ++ year.toJSString)
  | .value _ => .throw ⟨utf16 "date.getDate is not a function"⟩

/-! ## Library calls, trace and response -/

/-- The object passed to `ejs.render`, lines 124-133. -/
structure TemplateData where
  id : JSString
  certificateId : JSString
  fullName : JsonValue
  articleTitle : JsonValue
  date : JSString
  qr_code : Option JSString
  bgBase64 : JSString
  logoBase64 : JSString
deriving DecidableEq, Repr

/-- A call into a library, with the arguments the handler computes. -/
inductive Op where
  /-- `fs.readFile(path)` or `fs.readFile(path, 'utf-8')`. -/
  | readFile (path : JSString) (utf8 : Bool)
  /-- `QRCode.toDataURL(data, options)`. -/
  | toDataURL (data : JsonValue)
  /-- `ejs.render(template, data)`. -/
  | render (template : JSString) (data : TemplateData)
  /-- `puppeteer.launch(options)`. -/
  | launch
  /-- `browser.newPage()`. -/
  | newPage
  /-- `page.setViewport(viewport)`. -/
  | setViewport (width height deviceScaleFactor : Nat)
  /-- `page.setContent(html, options)`. -/
  | setContent (html : JSString) (timeout : Nat)
  /-- `page.evaluate(() => document.fonts.ready)`. -/
  | fontsReady
  /-- `page.evaluate(...)` waiting for every image to load or fail. -/
  | imagesSettled
  /-- `page.pdf(options)`. -/
  | pdf
  /-- `browser.close()`. -/
  | close
deriving DecidableEq, Repr

/-- How a call ended, without its value. -/
inductive Settled where
  | ok
  | failed (error : JsError)
deriving DecidableEq, Repr

@[simp] def Completion.settled {α : Type} : Completion α → Settled
  | .normal _ => .ok
  | .throw e => .failed e

/-- What a run leaves behind: library calls and `console.error` lines. -/
inductive Event where
  | call (op : Op) (result : Settled)
  | consoleError (label : JSString) (error : JsError)
deriving DecidableEq, Repr

/-- The body handed to `res.json` or `res.send`. -/
inductive ResponseBody where
  | json (properties : List (JSString × JSString))
  | buffer (bytes : List Nat)
deriving DecidableEq, Repr

/-- The response of the handler: status, the headers it sets with
`res.setHeader`, and the body. -/
structure Response where
  status : Nat
  headers : List (JSString × JSString)
  body : ResponseBody
deriving DecidableEq, Repr

/-- The libraries the handler calls. An argument the handler always passes as
the same constant (launch options, viewport, PDF options) is not a parameter. -/
structure Env where
  clock : Clock
  /-- `path.join(a, b)`. -/
  pathJoin : JSString → JSString → JSString
  /-- `fs.readFile(path, 'utf-8')`. -/
  readFileText : JSString → Completion JSString
  /-- `fs.readFile(path)`, the bytes of the buffer. -/
  readFile : JSString → Completion (List Nat)
  /-- `buffer.toString('base64')`. -/
  base64 : List Nat → JSString
  /-- `QRCode.toDataURL(data, options)`. -/
  toDataURL : JsonValue → Completion JSString
  /-- `ejs.render(template, data)`. -/
  render : JSString → TemplateData → Completion JSString
  launch : Completion Unit
  newPage : Completion Unit
  setViewport : Completion Unit
  setContent : JSString → Completion Unit
  fontsReady : Completion Unit
  imagesSettled : Completion Unit
  pdf : Completion (List Nat)
  /-- `browser.close()`, by the number of calls of it made before. -/
  close : Nat → Completion Unit

/-- The constants read from the process environment at startup, lines 15-16. -/
structure Config where
  CERTIFICATE_TEMPLATE_PATH : JSString
  CERTIFICATE_ASSETS_PATH : JSString

/-- The destructured request body, lines 95-101. -/
structure CertificateRequest where
  fullName : JsonValue
  articleTitle : JsonValue
  certificateId : JsonValue
  qrCodeUrl : JsonValue
  date : JsonValue
deriving DecidableEq, Repr

/-- The state of one run of the handler: the variable `browser` (whether it is
non-null), the trace so far and the response once sent. -/
structure HandlerState where
  browser : Bool
  trace : List Event
  response : Option Response
deriving DecidableEq, Repr

/-- The call is `browser.close()`. -/
def Event.isCloseCall : Event → Bool
  | .call .close _ => true
  | _ => false

/-- The number of `browser.close()` calls in a trace. -/
def closeCount (trace : List Event) : Nat := trace.countP Event.isCloseCall

/-- An asynchronous computation of the handler. -/
def Async (α : Type) : Type := HandlerState → Completion α × HandlerState

namespace Async

@[simp] def resolve {α : Type} (a : α) : Async α := fun s => (.normal a, s)

@[simp] def andThen {α β : Type} (m : Async α) (f : α → Async β) : Async β := fun s =>
  match m s with
  | (.normal a, s1) => f a s1
  | (.throw e, s1) => (.throw e, s1)

instance : Monad Async where
  pure := Async.resolve
  bind := Async.andThen

/-- A `try` block with its `catch` clause. -/
@[simp] def tryCatch {α : Type} (body : Async α) (handler : JsError → Async α) : Async α := fun s =>
  match body s with
  | (.normal a, s1) => (.normal a, s1)
  | (.throw e, s1) => handler e s1

/-- A statement `throw error`. -/
@[simp] def throw {α : Type} (e : JsError) : Async α := fun s => (.throw e, s)

/-- A library call, awaited where the source awaits it: it is recorded, then
completes as the library says. -/
@[simp] def call {α : Type} (op : Op) (result : Completion α) : Async α := fun s =>
  (result, { s with trace := s.trace ++ [Event.call op result.settled] })

/-- An expression of the handler that may throw. -/
@[simp] def eval {α : Type} (c : Completion α) : Async α := fun s => (c, s)

@[simp] def consoleError (label : JSString) (e : JsError) : Async Unit := fun s =>
  (.normal (), { s with trace := s.trace ++ [Event.consoleError label e] })

@[simp] def setBrowser (b : Bool) : Async Unit := fun s => (.normal (), { s with browser := b })

@[simp] def getBrowser : Async Bool := fun s => (.normal s.browser, s)

/-- The number of `browser.close()` calls made so far. -/
@[simp] def closeCalls : Async Nat := fun s => (.normal (closeCount s.trace), s)

@[simp] def respond (r : Response) : Async Unit := fun s => (.normal (), { s with response := some r })

end Async

/-! ## The handler -/

open Async in
/-- `readFileAsBase64(filePath)`, lines 61-70. -/
def readFileAsBase64 (env : Env) (filePath : JSString) : Async JSString :=
  tryCatch
    (do
      let fileBuffer ← call (.readFile filePath false) (env.readFile filePath)
      let base64String := env.base64 fileBuffer
      return base64String)
    (fun error => do
      consoleError (utf16 "Error reading file " ++ filePath ++ utf16 ":") error
      throw error)

open Async in
/-- `generateQRCodeBase64(data)`, lines 72-89; the result is `undefined`
(`none`) when the data URL has no comma. -/
def generateQRCodeBase64 (env : Env) (data : JsonValue) : Async (Option JSString) :=
  tryCatch
    (do
      let qrCodeDataUrl ← call (.toDataURL data) (env.toDataURL data)
      let base64String := (split 44 qrCodeDataUrl)[1]?
      return base64String)
    (fun error => do
      consoleError (utf16 "Error generating QR code:") error
      throw error)

/-- The expression `certificateId.toString().replace('#', '')`, line 118. -/
def cleanCertificateId (certificateId : JsonValue) : Completion JSString :=
  match certificateId.toString with
  | .normal s => .normal (replaceFirst 35 [] s)
  | .throw e => .throw e

/-- The expression of line 121: `qrCodeUrl`, or the template literal when it is falsy. -/
def verificationUrl (qrCodeUrl : JsonValue) (cleanCertificateId : JSString) : JsonValue :=
  if qrCodeUrl.truthy then qrCodeUrl
  else .string (utf16 "https://example.com/verify/" ++ cleanCertificateId)

/-- The character class `[^a-zA-Z0-9_\-]` of line 198, on one code unit. -/
def unsafeUnit (c : Nat) : Bool :=
  !((97 ≤ c && c ≤ 122) || (65 ≤ c && c ≤ 90) || (48 ≤ c && c ≤ 57) || c = 95 || c = 45)

/-- The expression `fullName.toString().replace(/[^a-zA-Z0-9_\-]/g, '_')`, lines 196-198. -/
def safeFullName (fullName : JsonValue) : Completion JSString :=
  match fullName.toString with
  | .normal s => .normal (replaceAllMatching unsafeUnit [95] s)
  | .throw e => .throw e

/-- The template literal of line 199. -/
def filename (safeFullName : JSString) : JSString := safeFullName ++ utf16 ".pdf"

/-- The response of lines 104-106. -/
def missingParametersResponse : Response :=
  { status := 400
    headers := []
    body := .json [(utf16 "error",
      utf16 "Missing required parameters: fullName, articleTitle, and certificateId are required")] }

/-- The response of lines 201-203. -/
def pdfResponse (filename : JSString) (pdfBuffer : List Nat) : Response :=
  { status := 200
    headers :=
      [(utf16 "Content-Type", utf16 "application/pdf"),
       (utf16 "Content-Disposition", utf16 "attachment; filename=\"" ++ filename ++ utf16 "\"")]
    body := .buffer pdfBuffer }

/-- The response of lines 216-219. -/
def failureResponse (error : JsError) : Response :=
  { status := 500
    headers := []
    body := .json [(utf16 "error", utf16 "Failed to generate certificate"),
                   (utf16 "message", error.message)] }

open Async in
/-- The `try` block of the handler, lines 95-203. -/
def tryBlock (cfg : Config) (env : Env) (req : CertificateRequest) : Async Unit :=
  if !req.fullName.truthy || !req.articleTitle.truthy || !req.certificateId.truthy then
    respond missingParametersResponse
  else do
    let templatePath := cfg.CERTIFICATE_TEMPLATE_PATH
    let bgImagePath := env.pathJoin cfg.CERTIFICATE_ASSETS_PATH (utf16 "bg.svg")
    let logoImagePath := env.pathJoin cfg.CERTIFICATE_ASSETS_PATH (utf16 "logo.svg")
    let template ← call (.readFile templatePath true) (env.readFileText templatePath)
    let bgBase64 ← readFileAsBase64 env bgImagePath
    let logoBase64 ← readFileAsBase64 env logoImagePath
    let cleanId ← eval (cleanCertificateId req.certificateId)
    let formattedDate ← eval (formatDate env.clock
      (if req.date.truthy then .value req.date else .dateObject env.clock.now))
    let url := verificationUrl req.qrCodeUrl cleanId
    let qrCodeBase64 ← generateQRCodeBase64 env url
    let data : TemplateData :=
      { id := cleanId
        certificateId := cleanId
        fullName := if req.fullName.truthy then req.fullName else .string []
        articleTitle := if req.articleTitle.truthy then req.articleTitle else .string []
        date := formattedDate
        qr_code := qrCodeBase64
        bgBase64 := bgBase64
        logoBase64 := logoBase64 }
    let html ← call (.render template data) (env.render template data)
    call .launch env.launch
    setBrowser true
    call .newPage env.newPage
    call (.setViewport 1828 1073 2) env.setViewport
    call (.setContent html 30000) (env.setContent html)
    tryCatch (call .fontsReady env.fontsReady) (fun _ => pure ())
    call .imagesSettled env.imagesSettled
    let pdfBuffer ← call .pdf env.pdf
    let n ← closeCalls
    call .close (env.close n)
    setBrowser false
    let safeName ← eval (safeFullName req.fullName)
    respond (pdfResponse (filename safeName) pdfBuffer)

open Async in
/-- The `catch` block of the handler, lines 205-220. -/
def catchBlock (env : Env) (error : JsError) : Async Unit := do
  consoleError (utf16 "Error generating certificate:") error
  if (← getBrowser) then
    tryCatch
      (do
        let n ← closeCalls
        call .close (env.close n))
      (fun closeError => consoleError (utf16 "Error closing browser:") closeError)
  respond (failureResponse error)

/-- The handler of `POST /generate-certificate`, lines 91-221, as a computation. -/
def generateCertificate (cfg : Config) (env : Env) (req : CertificateRequest) : Async Unit :=
  Async.tryCatch (tryBlock cfg env req) (catchBlock env)

/-- One run of the handler from `browser = null`: the state it ends in. -/
def handler (cfg : Config) (env : Env) (req : CertificateRequest) : HandlerState :=
  (generateCertificate cfg env req { browser := false, trace := [], response := none }).2

/-! ## The CORS middleware -/

/-- The variables of `process.env` the middleware depends on. -/
structure ProcessEnv where
  ALLOWED_ORIGINS : Option JSString
  NODE_ENV : Option JSString

/-- The constant `ALLOWED_ORIGINS`, lines 18-20: the variable split at commas
when it is set and not empty, the three local origins otherwise. -/
def ALLOWED_ORIGINS (penv : ProcessEnv) : List JSString :=
  match penv.ALLOWED_ORIGINS with
  | some value =>
    if !value.isEmpty then split 44 value
    else [utf16 "http://localhost:5174", utf16 "http://localhost:5173", utf16 "http://localhost:3000"]
  | none => [utf16 "http://localhost:5174", utf16 "http://localhost:5173", utf16 "http://localhost:3000"]

/-- What the middleware reads of a request: `req.headers.origin` (`none` when
the header is not sent) and `req.method`. -/
structure CorsRequest where
  origin : Option JSString
  method : JSString
deriving DecidableEq, Repr

/-- How the middleware ends: `res.sendStatus(status)` or `next()`. -/
inductive Passage where
  | sendStatus (status : Nat)
  | next
deriving DecidableEq, Repr

/-- The headers the middleware sets, in order, and how it ends. -/
structure CorsResult where
  headers : List (JSString × JSString)
  passage : Passage
deriving DecidableEq, Repr

/-- The middleware of lines 22-40. -/
def corsMiddleware (penv : ProcessEnv) (req : CorsRequest) : CorsResult :=
  let development : List (JSString × JSString) :=
    if penv.NODE_ENV = some (utf16 "development") then
      [(utf16 "Access-Control-Allow-Origin", utf16 "*")]
    else []
  let allowOrigin : List (JSString × JSString) :=
    match req.origin with
    | some origin =>
      if !origin.isEmpty && (ALLOWED_ORIGINS penv).contains origin then
        [(utf16 "Access-Control-Allow-Origin", origin)]
      else development
    | none => development
  { headers := allowOrigin ++
      [(utf16 "Access-Control-Allow-Methods", utf16 "GET, POST, PUT, DELETE, OPTIONS"),
       (utf16 "Access-Control-Allow-Headers",
        utf16 "Origin, X-Requested-With, Content-Type, Accept, Authorization"),
       (utf16 "Access-Control-Allow-Credentials", utf16 "true")]
    passage := if req.method = utf16 "OPTIONS" then .sendStatus 200 else .next }

/-- The value of a response header, if it was set. -/
def headerValue (name : JSString) (headers : List (JSString × JSString)) : Option JSString :=
  (headers.find? (fun h => h.1 = name)).map (fun h => h.2)

/-! ## Vocabulary of the statements -/

/-- The request passes the check of line 103. -/
def CertificateRequest.valid (req : CertificateRequest) : Bool :=
  req.fullName.truthy && req.articleTitle.truthy && req.certificateId.truthy

/-- The replacement as the specification words it, character by character:
every character outside `[A-Za-z0-9_-]` becomes one `_`, the others are kept. -/
def replaceCharacters (s : String) : String :=
  String.mk (s.toList.map (fun c =>
    if (97 ≤ c.toNat ∧ c.toNat ≤ 122) ∨ (65 ≤ c.toNat ∧ c.toNat ≤ 90) ∨
        (48 ≤ c.toNat ∧ c.toNat ≤ 57) ∨ c.toNat = 95 ∨ c.toNat = 45
    then c else '_'))

/-- A field that is absent, or present as the empty string. -/
def JsonValue.absentOrEmpty (v : JsonValue) : Bool :=
  v = .undefined || v = .string []

/-- The steps whose failure the handler does not absorb: every library call
but the font wait (whose error is ignored, lines 164-168) and `browser.close()`. -/
def Op.isStep : Op → Bool
  | .fontsReady => false
  | .close => false
  | _ => true

/-- A `console.error` line or a `browser.close()` call. -/
def Event.isCleanup : Event → Bool
  | .consoleError _ _ => true
  | .call .close _ => true
  | _ => false

/-- A call of a step that threw. -/
def Event.isFailedStep : Event → Bool
  | .call op (.failed _) => op.isStep
  | _ => false

/-- The error a call threw. -/
def Event.failure : Event → Option JsError
  | .call _ (.failed e) => some e
  | _ => none

/-- The data of an `ejs.render` call. -/
def Event.renderData : Event → Option TemplateData
  | .call (.render _ d) _ => some d
  | _ => none

/-- The data of a `QRCode.toDataURL` call. -/
def Event.qrData : Event → Option JsonValue
  | .call (.toDataURL d) _ => some d
  | _ => none

/-- A trace cut at its first failed step: the events before it, the failed
call, the events after it. -/
def splitAtFailure : List Event → Option (List Event × Event × List Event)
  | [] => none
  | ev :: rest =>
    if ev.isFailedStep then some ([], ev, rest)
    else (splitAtFailure rest).map (fun r => (ev :: r.1, r.2.1, r.2.2))

/-- The facts about the final state of a run that the case analysis of the
handler establishes path by path. -/
def RunFacts (req : CertificateRequest) (st : HandlerState) : Prop :=
  (req.valid = false →
    st = { browser := false, trace := [], response := some missingParametersResponse }) ∧
  (req.valid = true →
    ∃ r, st.response = some r ∧ (r.status = 500 ∨ r.status = 200)) ∧
  (∀ r, st.response = some r → r.status = 200 →
    ∃ name pdfBuffer, safeFullName req.fullName = .normal name ∧
      r = pdfResponse (filename name) pdfBuffer) ∧
  (∀ d ∈ st.trace.filterMap Event.renderData,
    cleanCertificateId req.certificateId = .normal d.id ∧ d.certificateId = d.id) ∧
  (∀ d ∈ st.trace.filterMap Event.qrData,
    ∃ id, cleanCertificateId req.certificateId = .normal id ∧
      d = verificationUrl req.qrCodeUrl id) ∧
  (match splitAtFailure st.trace with
    | none => True
    | some (_, failed, after) =>
      after.all Event.isCleanup = true ∧
      st.response = failed.failure.map failureResponse) ∧
  (match splitAtFailure st.trace with
    | none => True
    | some (before, _, after) =>
      Event.call .launch .ok ∈ before → after.any Event.isCloseCall = true) ∧
  (∀ p e, Event.call (.readFile p true) (.failed e) ∈ st.trace → closeCount st.trace = 0) ∧
  (∀ html t e, Event.call (.setContent html t) (.failed e) ∈ st.trace →
    closeCount st.trace = 1) ∧
  (∀ e, Event.call .pdf (.failed e) ∈ st.trace → closeCount st.trace = 1)

/-- The pattern `DD.MM.YYYY`: two digits, a dot, two digits, a dot, four digits. -/
def isDDMMYYYY (s : JSString) : Bool :=
  match s with
  | [d1, d2, p1, m1, m2, p2, y1, y2, y3, y4] =>
    [d1, d2, m1, m2, y1, y2, y3, y4].all (fun c => 48 ≤ c && c ≤ 57) && p1 = 46 && p2 = 46
  | _ => false

/-! ## Sample inputs -/

/-- A configuration. -/
def sampleConfig : Config :=
  { CERTIFICATE_TEMPLATE_PATH := utf16 "/app/templates/template.ejs"
    CERTIFICATE_ASSETS_PATH := utf16 "/app/assets" }

/-- A host on which every library call succeeds, on 5 March 2024. -/
def sampleEnv : Env :=
  { clock := { now := .valid 5 2 2024, parse := fun _ => .invalid }
    pathJoin := fun a b => a ++ utf16 "/" ++ b
    readFileText := fun _ => .normal (utf16 "<html><%= fullName %></html>")
    readFile := fun _ => .normal [60, 115, 118, 103, 47, 62]
    base64 := fun _ => utf16 "PHN2Zy8+"
    toDataURL := fun _ => .normal (utf16 "data:image/png;base64,iVBORw0KGgo=")
    render := fun _ _ => .normal (utf16 "<html>certificate</html>")
    launch := .normal ()
    newPage := .normal ()
    setViewport := .normal ()
    setContent := fun _ => .normal ()
    fontsReady := .normal ()
    imagesSettled := .normal ()
    pdf := .normal [37, 80, 68, 70]
    close := fun _ => .normal () }

/-- A well-formed request. -/
def sampleRequest : CertificateRequest :=
  { fullName := .string (utf16 "Jürgen O\x27Neil")
    articleTitle := .string (utf16 "On Certificates")
    certificateId := .string (utf16 "#123")
    qrCodeUrl := .undefined
    date := .undefined }

/-- The sample request under the name `𠮷田`, whose first character lies outside
the Basic Multilingual Plane. -/
def astralNameRequest : CertificateRequest :=
  { sampleRequest with fullName := .string (utf16 "𠮷田") }

/-- The sample request with the numeric certificate id `0`. -/
def zeroIdRequest : CertificateRequest :=
  { sampleRequest with certificateId := .number true (utf16 "0") }

/-- The sample request with `qrCodeUrl` supplied as the empty string. -/
def emptyQrRequest : CertificateRequest :=
  { sampleRequest with qrCodeUrl := .string [] }

/-- The sample request with a `qrCodeUrl`. -/
def customQrRequest : CertificateRequest :=
  { sampleRequest with qrCodeUrl := .string (utf16 "https://journal.example.org/c/123") }

/-- The sample host, except that the template file cannot be read. -/
def templateFailureEnv : Env :=
  { sampleEnv with
    readFileText := fun _ => .throw ⟨utf16 "ENOENT: no such file or directory"⟩ }

/-- The sample host, except that loading the content times out. -/
def contentLoadFailureEnv : Env :=
  { sampleEnv with
    setContent := fun _ => .throw ⟨utf16 "Navigation timeout of 30000 ms exceeded"⟩ }

/-- The sample host, except that the PDF export fails. -/
def pdfFailureEnv : Env :=
  { sampleEnv with pdf := .throw ⟨utf16 "Printing failed"⟩ }

/-- The sample host, except that every `browser.close()` fails. -/
def closeFailureEnv : Env :=
  { sampleEnv with close := fun _ => .throw ⟨utf16 "Target closed"⟩ }

/-- The host on which the PDF export fails and `browser.close()` fails too. -/
def pdfAndCloseFailureEnv : Env :=
  { pdfFailureEnv with close := fun _ => .throw ⟨utf16 "Target closed"⟩ }

/-- A production environment whose allowed-origins variable ends in a comma. -/
def trailingCommaEnv : ProcessEnv :=
  { ALLOWED_ORIGINS := some (utf16 "https://journal.example.org,")
    NODE_ENV := some (utf16 "production") }

/-- A request whose `Origin` header is sent empty. -/
def emptyOriginRequest : CorsRequest :=
  { origin := some [], method := utf16 "GET" }

/-- A preflight request from an allowed origin. -/
def preflightRequest : CorsRequest :=
  { origin := some (utf16 "https://journal.example.org"), method := utf16 "OPTIONS" }

/-- A host west of Greenwich, on which the date-only string `2024-03-05`, read
as midnight UTC, is 4 March 2024 in local time. -/
def westOfGreenwichClock : Clock :=
  { now := .valid 4 2 2024, parse := fun _ => .valid 4 2 2024 }

end CertificateServer

/-! ## Running the handler -/

namespace CertificateServer

@[simp] theorem Async.bind_eq {α β : Type} (m : Async α) (f : α → Async β) :
    (m >>= f) = Async.andThen m f := rfl

@[simp] theorem Async.pure_eq {α : Type} (a : α) :
    (Pure.pure a : Async α) = Async.resolve a := rfl

theorem valid_eq_false_of_check {req : CertificateRequest}
    (h : (!req.fullName.truthy || !req.articleTitle.truthy || !req.certificateId.truthy) = true) :
    req.valid = false := by
  simp only [CertificateRequest.valid]
  revert h
  cases req.fullName.truthy <;> cases req.articleTitle.truthy <;>
    cases req.certificateId.truthy <;> simp

theorem valid_eq_true_of_check {req : CertificateRequest}
    (h : ¬ (!req.fullName.truthy || !req.articleTitle.truthy || !req.certificateId.truthy) = true) :
    req.valid = true := by
  simp only [CertificateRequest.valid]
  revert h
  cases req.fullName.truthy <;> cases req.articleTitle.truthy <;>
    cases req.certificateId.truthy <;> simp

set_option maxHeartbeats 8000000 in
/-- Every run of the handler, path by path: the outcome of each library call is
split in turn, a failing call ending the path. -/
theorem handler_run (cfg : Config) (env : Env) (req : CertificateRequest) :
    RunFacts req (handler cfg env req) := by
  by_cases hv : (!req.fullName.truthy || !req.articleTitle.truthy || !req.certificateId.truthy) = true
  · have hv2 := valid_eq_false_of_check hv
    simp [handler, generateCertificate, tryBlock, hv, hv2, splitAtFailure,
      missingParametersResponse, RunFacts]
  have hv2 := valid_eq_true_of_check hv
  rcases h1 : env.readFileText cfg.CERTIFICATE_TEMPLATE_PATH with template | e1
  swap
  · simp [h1, handler, generateCertificate, tryBlock, hv, catchBlock, readFileAsBase64,
      generateQRCodeBase64, hv2, RunFacts, closeCount, splitAtFailure, Event.isFailedStep,
      Event.isCleanup, Event.isCloseCall, Event.failure, Event.renderData, Event.qrData,
      Op.isStep, failureResponse, pdfResponse]
  simp [h1, handler, generateCertificate, tryBlock, hv, catchBlock, readFileAsBase64,
    generateQRCodeBase64]
  rcases h2 : env.readFile (env.pathJoin cfg.CERTIFICATE_ASSETS_PATH (utf16 "bg.svg")) with bg | e2
  swap
  · simp [h2, hv2, RunFacts, closeCount, splitAtFailure, Event.isFailedStep, Event.isCleanup,
      Event.isCloseCall, Event.failure, Event.renderData, Event.qrData, Op.isStep,
      failureResponse, pdfResponse]
  simp [h2]
  rcases h3 : env.readFile (env.pathJoin cfg.CERTIFICATE_ASSETS_PATH (utf16 "logo.svg")) with logo | e3
  swap
  · simp [h3, hv2, RunFacts, closeCount, splitAtFailure, Event.isFailedStep, Event.isCleanup,
      Event.isCloseCall, Event.failure, Event.renderData, Event.qrData, Op.isStep,
      failureResponse, pdfResponse]
  simp [h3]
  rcases h4 : cleanCertificateId req.certificateId with cleanId | e4
  swap
  · simp [h4, hv2, RunFacts, closeCount, splitAtFailure, Event.isFailedStep, Event.isCleanup,
      Event.isCloseCall, Event.failure, Event.renderData, Event.qrData, Op.isStep,
      failureResponse, pdfResponse]
  simp [h4]
  rcases h5 : formatDate env.clock
      (if req.date.truthy then .value req.date else .dateObject env.clock.now) with formattedDate | e5
  swap
  · simp [h5, hv2, RunFacts, h4, closeCount, splitAtFailure, Event.isFailedStep, Event.isCleanup,
      Event.isCloseCall, Event.failure, Event.renderData, Event.qrData, Op.isStep,
      failureResponse, pdfResponse]
  simp [h5]
  rcases h6 : env.toDataURL (verificationUrl req.qrCodeUrl cleanId) with qr | e6
  swap
  · simp [h6, hv2, RunFacts, h4, closeCount, splitAtFailure, Event.isFailedStep, Event.isCleanup,
      Event.isCloseCall, Event.failure, Event.renderData, Event.qrData, Op.isStep,
      failureResponse, pdfResponse]
  simp [h6]
  rcases h7 : env.render template
      { id := cleanId, certificateId := cleanId,
        fullName := if req.fullName.truthy = true then req.fullName else JsonValue.string [],
        articleTitle :=
          if req.articleTitle.truthy = true then req.articleTitle else JsonValue.string [],
        date := formattedDate, qr_code := (split 44 qr)[1]?,
        bgBase64 := env.base64 bg, logoBase64 := env.base64 logo } with html | e7
  swap
  · simp [h7, hv2, RunFacts, h4, closeCount, splitAtFailure, Event.isFailedStep, Event.isCleanup,
      Event.isCloseCall, Event.failure, Event.renderData, Event.qrData, Op.isStep,
      failureResponse, pdfResponse]
  simp [h7]
  rcases h8 : env.launch with _ | e8
  swap
  · simp [h8, hv2, RunFacts, h4, closeCount, splitAtFailure, Event.isFailedStep, Event.isCleanup,
      Event.isCloseCall, Event.failure, Event.renderData, Event.qrData, Op.isStep,
      failureResponse, pdfResponse]
  simp [h8]
  all_goals
    rcases h9 : env.newPage with _ | e9
    swap
    · rcases hc0 : env.close 0 with _ | ec0 <;>
        simp [h9, hc0, hv2, RunFacts, h4, closeCount, splitAtFailure, Event.isFailedStep,
          Event.isCleanup, Event.isCloseCall, Event.failure, Event.renderData, Event.qrData,
          Op.isStep, failureResponse, pdfResponse]
    simp [h9]
  all_goals
    rcases h10 : env.setViewport with _ | e10
    swap
    · rcases hc0 : env.close 0 with _ | ec0 <;>
        simp [h10, hc0, hv2, RunFacts, h4, closeCount, splitAtFailure, Event.isFailedStep,
          Event.isCleanup, Event.isCloseCall, Event.failure, Event.renderData, Event.qrData,
          Op.isStep, failureResponse, pdfResponse]
    simp [h10]
  all_goals
    rcases h11 : env.setContent html with _ | e11
    swap
    · rcases hc0 : env.close 0 with _ | ec0 <;>
        simp [h11, hc0, hv2, RunFacts, h4, closeCount, splitAtFailure, Event.isFailedStep,
          Event.isCleanup, Event.isCloseCall, Event.failure, Event.renderData, Event.qrData,
          Op.isStep, failureResponse, pdfResponse]
    simp [h11]
  rcases h12 : env.fontsReady with _ | e12 <;> simp [h12]
  all_goals
    rcases h13 : env.imagesSettled with _ | e13
    swap
    · rcases hc0 : env.close 0 with _ | ec0 <;>
        simp [h13, hc0, hv2, RunFacts, h4, closeCount, splitAtFailure, Event.isFailedStep,
          Event.isCleanup, Event.isCloseCall, Event.failure, Event.renderData, Event.qrData,
          Op.isStep, failureResponse, pdfResponse]
    simp [h13]
  all_goals
    rcases h14 : env.pdf with pdfBuffer | e14
    swap
    · rcases hc0 : env.close 0 with _ | ec0 <;>
        simp [h14, hc0, hv2, RunFacts, h4, closeCount, splitAtFailure, Event.isFailedStep,
          Event.isCleanup, Event.isCloseCall, Event.failure, Event.renderData, Event.qrData,
          Op.isStep, failureResponse, pdfResponse]
    simp [h14]
  all_goals
    rcases hc0 : env.close 0 with _ | ec0
    · rcases h15 : safeFullName req.fullName with safeName | e15 <;>
        simp [hc0, h15, hv2, RunFacts, h4, closeCount, splitAtFailure, Event.isFailedStep,
          Event.isCleanup, Event.isCloseCall, Event.failure, Event.renderData, Event.qrData,
          Op.isStep, failureResponse, pdfResponse]
    · rcases hc1 : env.close 1 with _ | ec1 <;>
        simp [hc0, hc1, hv2, RunFacts, h4, closeCount, splitAtFailure, Event.isFailedStep,
          Event.isCleanup, Event.isCloseCall, Event.failure, Event.renderData, Event.qrData,
          Op.isStep, failureResponse, pdfResponse]

/-! ## Traces -/

theorem splitAtFailure_some {trace before after : List Event} {failed : Event}
    (h : splitAtFailure trace = some (before, failed, after)) :
    trace = before ++ failed :: after ∧ failed.isFailedStep = true ∧
      ∀ ev ∈ before, ev.isFailedStep = false := by
  induction trace generalizing before with
  | nil => simp [splitAtFailure] at h
  | cons ev rest ih =>
    by_cases hev : ev.isFailedStep = true
    · simp only [splitAtFailure, hev, if_true, Option.some.injEq, Prod.mk.injEq] at h
      obtain ⟨rfl, rfl, rfl⟩ := h
      simp [hev]
    · simp only [splitAtFailure, hev, Bool.false_eq_true, if_false, Option.map_eq_some'] at h
      obtain ⟨⟨b, f, a⟩, hrest, heq⟩ := h
      simp only [Prod.mk.injEq] at heq
      obtain ⟨rfl, rfl, rfl⟩ := heq
      obtain ⟨h1, h2, h3⟩ := ih hrest
      refine ⟨by simp [h1], h2, ?_⟩
      intro x hx
      rcases List.mem_cons.mp hx with rfl | hx
      · simpa using hev
      · exact h3 x hx

theorem splitAtFailure_none {trace : List Event} (h : splitAtFailure trace = none) :
    ∀ ev ∈ trace, ev.isFailedStep = false := by
  induction trace with
  | nil => simp
  | cons ev rest ih =>
    by_cases hev : ev.isFailedStep = true
    · simp [splitAtFailure, hev] at h
    · simp only [splitAtFailure, hev, Bool.false_eq_true, if_false, Option.map_eq_none'] at h
      intro x hx
      rcases List.mem_cons.mp hx with rfl | hx
      · simpa using hev
      · exact ih h x hx

theorem isFailedStep_eq_false_of_isCleanup {ev : Event} (h : ev.isCleanup = true) :
    ev.isFailedStep = false := by
  cases ev with
  | consoleError l e => rfl
  | call op r =>
    cases op <;> cases r <;> simp_all [Event.isCleanup, Event.isFailedStep, Op.isStep]

/-- A failed step of a run is the first one: the trace splits around it, only
clean-up follows it, and the response carries its error. -/
theorem failed_step_split (cfg : Config) (env : Env) (req : CertificateRequest) (op : Op)
    (e : JsError) (hfail : Event.call op (.failed e) ∈ (handler cfg env req).trace)
    (hstep : op.isStep = true) :
    ∃ before after,
      (handler cfg env req).trace = before ++ Event.call op (.failed e) :: after ∧
      (∀ ev ∈ after, ev.isCleanup = true) ∧
      (Event.call .launch .ok ∈ before → ∃ res, Event.call .close res ∈ after) ∧
      (handler cfg env req).response = some (failureResponse e) := by
  have hrun := handler_run cfg env req
  obtain ⟨-, -, -, -, -, hsplit, hclose, -⟩ := hrun
  have hF : (Event.call op (.failed e)).isFailedStep = true := by
    simpa [Event.isFailedStep] using hstep
  cases hs : splitAtFailure (handler cfg env req).trace with
  | none =>
    have := splitAtFailure_none hs _ hfail
    rw [hF] at this
    cases this
  | some r =>
    obtain ⟨before, failed, after⟩ := r
    rw [hs] at hsplit hclose
    obtain ⟨hafter, hresp⟩ := hsplit
    obtain ⟨htrace, -, hbefore⟩ := splitAtFailure_some hs
    have hafter2 : ∀ ev ∈ after, ev.isCleanup = true := by
      simpa [List.all_eq_true] using hafter
    have hEq : Event.call op (.failed e) = failed := by
      rw [htrace] at hfail
      rcases List.mem_append.mp hfail with hb | hb
      · have := hbefore _ hb
        rw [hF] at this
        cases this
      · rcases List.mem_cons.mp hb with h | ha
        · exact h
        · have := isFailedStep_eq_false_of_isCleanup (hafter2 _ ha)
          rw [hF] at this
          cases this
    subst hEq
    refine ⟨before, after, htrace, hafter2, ?_, ?_⟩
    · intro hl
      have hany := hclose hl
      obtain ⟨ev, hev, hc⟩ := List.any_eq_true.mp hany
      cases ev with
      | consoleError l e2 => simp [Event.isCloseCall] at hc
      | call op2 res =>
        cases op2 <;> simp [Event.isCloseCall] at hc
        exact ⟨res, hev⟩
    · simpa [Event.failure] using hresp

theorem mem_filterMap_renderData {trace : List Event} {t : JSString} {d : TemplateData}
    {res : Settled} (h : Event.call (.render t d) res ∈ trace) :
    d ∈ trace.filterMap Event.renderData :=
  List.mem_filterMap.mpr ⟨_, h, rfl⟩

theorem mem_filterMap_qrData {trace : List Event} {d : JsonValue} {res : Settled}
    (h : Event.call (.toDataURL d) res ∈ trace) : d ∈ trace.filterMap Event.qrData :=
  List.mem_filterMap.mpr ⟨_, h, rfl⟩


/-! ## Strings and numbers -/

theorem valid_eq_false_iff (req : CertificateRequest) :
    req.valid = false ↔
      (req.fullName.truthy = false ∨ req.articleTitle.truthy = false ∨
        req.certificateId.truthy = false) := by
  simp only [CertificateRequest.valid]
  cases req.fullName.truthy <;> cases req.articleTitle.truthy <;>
    cases req.certificateId.truthy <;> simp

theorem truthy_eq_false_iff (v : JsonValue) :
    v.truthy = false ↔
      (v = .undefined ∨ v = .null ∨ v = .boolean false ∨ (∃ text, v = .number true text) ∨
        v = .string []) := by
  cases v with
  | undefined => simp [JsonValue.truthy]
  | null => simp [JsonValue.truthy]
  | boolean b => cases b <;> simp [JsonValue.truthy]
  | number z t => cases z <;> simp [JsonValue.truthy]
  | string s => cases s <;> simp [JsonValue.truthy]
  | object r => simp [JsonValue.truthy]

theorem replaceAllMatching_unit (isMatch : Nat → Bool) (u : Nat) (s : JSString) :
    replaceAllMatching isMatch [u] s = s.map (fun c => if isMatch c then u else c) := by
  induction s with
  | nil => rfl
  | cons c cs ih =>
    by_cases h : isMatch c = true <;> simp [replaceAllMatching, h, ih]

theorem replaceFirst_of_not_mem (pattern : Nat) (s : JSString) (h : pattern ∉ s) :
    replaceFirst pattern [] s = s := by
  induction s with
  | nil => rfl
  | cons c cs ih =>
    have hc : c ≠ pattern := fun hc => h (by simp [hc])
    have hcs : pattern ∉ cs := fun hm => h (List.mem_cons_of_mem _ hm)
    simp [replaceFirst, hc, ih hcs]

theorem replaceFirst_append (pattern : Nat) (pre post : JSString) (h : pattern ∉ pre) :
    replaceFirst pattern [] (pre ++ pattern :: post) = pre ++ post := by
  induction pre with
  | nil => simp [replaceFirst]
  | cons c cs ih =>
    have hc : c ≠ pattern := fun hc => h (by simp [hc])
    have hcs : pattern ∉ cs := fun hm => h (List.mem_cons_of_mem _ hm)
    simp [replaceFirst, hc, ih hcs]

theorem replaceFirst_nil_eq_erase (pattern : Nat) (s : JSString) :
    replaceFirst pattern [] s = s.erase pattern := by
  induction s with
  | nil => rfl
  | cons c cs ih =>
    by_cases h : c = pattern
    · simp [replaceFirst, h]
    · have h2 : (c == pattern) = false := by simpa using h
      simp [replaceFirst, h, List.erase_cons, h2, ih]

theorem replaceFirst_idempotent_iff (pattern : Nat) (s : JSString) :
    replaceFirst pattern [] (replaceFirst pattern [] s) = replaceFirst pattern [] s ↔
      s.count pattern ≤ 1 := by
  rw [replaceFirst_nil_eq_erase, replaceFirst_nil_eq_erase]
  constructor
  · intro h
    have hnot : pattern ∉ s.erase pattern := by
      intro hmem
      have := List.length_erase_of_mem hmem
      rw [h] at this
      have hpos : 0 < (s.erase pattern).length := List.length_pos_of_mem hmem
      omega
    have hc : (s.erase pattern).count pattern = 0 := List.count_eq_zero_of_not_mem hnot
    rw [List.count_erase_self] at hc
    omega
  · intro h
    apply List.erase_of_not_mem
    intro hmem
    have hpos : 0 < (s.erase pattern).count pattern := List.count_pos_iff.mpr hmem
    rw [List.count_erase_self] at hpos
    omega

theorem digitChar_toNat (d : Nat) (h : d < 10) : (Nat.digitChar d).toNat = 48 + d := by
  interval_cases d <;> rfl

theorem toDigits_one (n : Nat) (h : n < 10) :
    (Nat.toDigits 10 n).map Char.toNat = [48 + n] := by
  interval_cases n <;> rfl

theorem toDigits_two (n : Nat) (h1 : 10 ≤ n) (h2 : n < 100) :
    (Nat.toDigits 10 n).map Char.toNat = [48 + n / 10, 48 + n % 10] := by
  interval_cases n <;> rfl

theorem toDigitsCore_four (fuel n : Nat) (h1 : 1000 ≤ n) (h2 : n < 10000) :
    Nat.toDigitsCore 10 (fuel + 4) n [] =
      [Nat.digitChar (n / 1000), Nat.digitChar (n / 100 % 10), Nat.digitChar (n / 10 % 10),
        Nat.digitChar (n % 10)] := by
  have e1 : n / 10 ≠ 0 := by omega
  have e2 : n / 10 / 10 ≠ 0 := by omega
  have e3 : n / 10 / 10 / 10 ≠ 0 := by omega
  have e4 : n / 10 / 10 / 10 / 10 = 0 := by omega
  have f2 : n / 10 / 10 = n / 100 := by omega
  have f3 : n / 10 / 10 / 10 % 10 = n / 1000 := by omega
  simp only [Nat.toDigitsCore, e1, e2, e3, e4, if_true, if_false, f3]
  rw [f2]

theorem toDigits_four (n : Nat) (h1 : 1000 ≤ n) (h2 : n < 10000) :
    (Nat.toDigits 10 n).map Char.toNat =
      [48 + n / 1000, 48 + n / 100 % 10, 48 + n / 10 % 10, 48 + n % 10] := by
  have hfuel : n + 1 = (n - 3) + 4 := by omega
  rw [Nat.toDigits, hfuel, toDigitsCore_four _ n h1 h2]
  simp only [List.map_cons, List.map_nil]
  rw [digitChar_toNat _ (by omega), digitChar_toNat _ (by omega), digitChar_toNat _ (by omega),
    digitChar_toNat _ (by omega)]

theorem padStart_two_digits (n : Nat) (h : n < 100) :
    padStart 2 48 ((Nat.toDigits 10 n).map Char.toNat) = [48 + n / 10, 48 + n % 10] := by
  by_cases h10 : n < 10
  · rw [toDigits_one n h10]
    have : n / 10 = 0 := by omega
    have h2 : n % 10 = n := by omega
    simp [padStart, this, h2]
  · rw [toDigits_two n (by omega) h]
    simp [padStart]


/-! ## Validation (C1) -/

/-- C1, the claim as stated fails: the numeric id `0` is neither absent nor
empty, yet the handler answers 400. -/
theorem missing_parameters_counterexample :
    (handler sampleConfig sampleEnv zeroIdRequest).response = some missingParametersResponse ∧
    missingParametersResponse.status = 400 ∧
    zeroIdRequest.fullName.absentOrEmpty = false ∧
    zeroIdRequest.articleTitle.absentOrEmpty = false ∧
    zeroIdRequest.certificateId.absentOrEmpty = false := by
  decide

/-- C1 (as amended): the handler answers 400 exactly when one of the three
required fields is falsy (absent, null, false, zero or the empty string); the
400 answer is the JSON object with the `error` text, and in such a run no
library call has been made. -/
theorem missing_parameters_iff_falsy (cfg : Config) (env : Env) (req : CertificateRequest) :
    ((∃ r, (handler cfg env req).response = some r ∧ r.status = 400) ↔
      (req.fullName.truthy = false ∨ req.articleTitle.truthy = false ∨
        req.certificateId.truthy = false)) ∧
    (∀ r, (handler cfg env req).response = some r → r.status = 400 →
      r.body = .json [(utf16 "error",
        utf16 "Missing required parameters: fullName, articleTitle, and certificateId are required")] ∧
      (handler cfg env req).trace = []) ∧
    (∀ v : JsonValue, v.truthy = false ↔
      (v = .undefined ∨ v = .null ∨ v = .boolean false ∨ (∃ text, v = .number true text) ∨
        v = .string [])) := by
  obtain ⟨hinvalid, hvalid, -⟩ := handler_run cfg env req
  have key : (∃ r, (handler cfg env req).response = some r ∧ r.status = 400) ↔
      req.valid = false := by
    constructor
    · rintro ⟨r, hr, hs⟩
      by_contra hv
      have hv2 : req.valid = true := by simpa using hv
      obtain ⟨r2, hr2, h2⟩ := hvalid hv2
      rw [hr] at hr2
      cases hr2
      omega
    · intro hv
      rw [hinvalid hv]
      exact ⟨_, rfl, rfl⟩
  refine ⟨key.trans (valid_eq_false_iff req), ?_, truthy_eq_false_iff⟩
  intro r hr hs
  have hv := key.mp ⟨r, hr, hs⟩
  rw [hinvalid hv] at hr ⊢
  cases hr
  exact ⟨rfl, rfl⟩

/-- C1, at a concrete run: the request with the numeric id `0` is answered 400. -/
theorem missing_parameters_iff_falsy_witness :
    ∃ r, (handler sampleConfig sampleEnv zeroIdRequest).response = some r ∧ r.status = 400 :=
  (missing_parameters_iff_falsy sampleConfig sampleEnv zeroIdRequest).1.mpr
    (Or.inr (Or.inr rfl))


/-! ## The file name of the download (C2) -/

/-- C2, the claim as stated fails: the name `𠮷田` has two characters, both
outside `[A-Za-z0-9_-]`, so one `_` for each would give `__.pdf`; the handler
names the file `___.pdf`, the first character being two UTF-16 code units. -/
theorem filename_character_counterexample :
    "𠮷田".length = 2 ∧
    replaceCharacters "𠮷田" = "__" ∧
    (handler sampleConfig sampleEnv astralNameRequest).response =
      some (pdfResponse (utf16 "___.pdf") [37, 80, 68, 70]) ∧
    headerValue (utf16 "Content-Disposition")
        (pdfResponse (utf16 "___.pdf") [37, 80, 68, 70]).headers =
      some (utf16 "attachment; filename=\"___.pdf\"") ∧
    utf16 "___.pdf" ≠ utf16 (replaceCharacters "𠮷田" ++ ".pdf") := by
  decide

/-- C2 (as amended): in every run that answers 200, the `Content-Disposition`
header is `attachment; filename="<name>.pdf"` where `<name>` is `fullName` (as
text) with each UTF-16 code unit outside `[A-Za-z0-9_-]` replaced by one `_`
and every other unit kept in place, so that a character of two code units gives
two `_`; `Jürgen O'Neil` gives `J_rgen_O_Neil.pdf`. -/
theorem content_disposition_filename (cfg : Config) (env : Env) (req : CertificateRequest)
    (r : Response) (hr : (handler cfg env req).response = some r) (hs : r.status = 200) :
    (∃ s, req.fullName.toString = .normal s ∧
      headerValue (utf16 "Content-Disposition") r.headers =
        some (utf16 "attachment; filename=\"" ++
          (s.map (fun c =>
            if (97 ≤ c ∧ c ≤ 122) ∨ (65 ≤ c ∧ c ≤ 90) ∨ (48 ≤ c ∧ c ≤ 57) ∨ c = 95 ∨ c = 45
            then c else 95) ++ utf16 ".pdf") ++ utf16 "\"")) ∧
    safeFullName (.string (utf16 "Jürgen O\x27Neil")) = .normal (utf16 "J_rgen_O_Neil") ∧
    filename (utf16 "J_rgen_O_Neil") = utf16 "J_rgen_O_Neil.pdf" := by
  refine ⟨?_, by decide, by decide⟩
  obtain ⟨-, -, hok, -⟩ := handler_run cfg env req
  obtain ⟨name, pdfBuffer, hname, rfl⟩ := hok r hr hs
  unfold safeFullName at hname
  cases hstr : req.fullName.toString with
  | throw e => rw [hstr] at hname; cases hname
  | normal s =>
    rw [hstr] at hname
    simp only [Completion.normal.injEq] at hname
    subst hname
    refine ⟨s, rfl, ?_⟩
    have hdisp : utf16 "Content-Type" ≠ utf16 "Content-Disposition" := by decide
    have hmap : replaceAllMatching unsafeUnit [95] s =
        s.map (fun c =>
          if (97 ≤ c ∧ c ≤ 122) ∨ (65 ≤ c ∧ c ≤ 90) ∨ (48 ≤ c ∧ c ≤ 57) ∨ c = 95 ∨ c = 45
          then c else 95) := by
      rw [replaceAllMatching_unit]
      apply List.map_congr_left
      intro c _
      by_cases hc : (97 ≤ c ∧ c ≤ 122) ∨ (65 ≤ c ∧ c ≤ 90) ∨ (48 ≤ c ∧ c ≤ 57) ∨ c = 95 ∨ c = 45
      · have : unsafeUnit c = false := by
          simp only [unsafeUnit, Bool.not_eq_false', Bool.or_eq_true, Bool.and_eq_true,
            decide_eq_true_eq]
          omega
        simp [hc, this]
      · have : unsafeUnit c = true := by
          simp only [unsafeUnit, Bool.not_eq_true', Bool.or_eq_false_iff, Bool.and_eq_false_imp,
            decide_eq_true_eq, decide_eq_false_iff_not]
          omega
        simp [hc, this]
    simp [headerValue, pdfResponse, List.find?, hdisp, filename, hmap]

/-- C2, at a concrete run: the sample request on the sample host. -/
theorem content_disposition_filename_witness :
    (handler sampleConfig sampleEnv sampleRequest).response =
        some (pdfResponse (utf16 "J_rgen_O_Neil.pdf") [37, 80, 68, 70]) ∧
    (pdfResponse (utf16 "J_rgen_O_Neil.pdf") [37, 80, 68, 70]).status = 200 ∧
    headerValue (utf16 "Content-Disposition")
        (pdfResponse (utf16 "J_rgen_O_Neil.pdf") [37, 80, 68, 70]).headers =
      some (utf16 "attachment; filename=\"J_rgen_O_Neil.pdf\"") := by
  have h1 : (handler sampleConfig sampleEnv sampleRequest).response =
      some (pdfResponse (utf16 "J_rgen_O_Neil.pdf") [37, 80, 68, 70]) := by decide
  obtain ⟨⟨s, hs, hh⟩, -, -⟩ :=
    content_disposition_filename sampleConfig sampleEnv sampleRequest _ h1 rfl
  exact ⟨h1, rfl, by decide⟩


/-! ## The normalized certificate id (C3, C4) -/

/-- C3, the claim as stated fails: the id `AB#12` does not start with `#`, yet
it is not left unchanged; its normalized form is `AB12`. -/
theorem leading_hash_counterexample :
    (utf16 "AB#12").head? ≠ some 35 ∧
    cleanCertificateId (.string (utf16 "AB#12")) = .normal (utf16 "AB12") ∧
    cleanCertificateId (.string (utf16 "AB#12")) ≠ .normal (utf16 "AB#12") := by
  decide

/-- C3 (as amended): the normalized id is the text of `certificateId` with its
first `#` removed, wherever it stands: the leading `#` when the text starts with
`#`, nothing when the text has no `#`. This one value is the `id` and the
`certificateId` of every `ejs.render` call, and what follows
`https://example.com/verify/` in the URL handed to the QR generator when
`qrCodeUrl` is falsy. -/
theorem cleanCertificateId_removes_first_hash (cfg : Config) (env : Env)
    (req : CertificateRequest) :
    (∀ s, req.certificateId.toString = .normal s →
      ∃ id, cleanCertificateId req.certificateId = .normal id ∧
        (∀ rest, s = 35 :: rest → id = rest) ∧
        (35 ∉ s → id = s) ∧
        (∀ pre post, s = pre ++ 35 :: post → 35 ∉ pre → id = pre ++ post)) ∧
    (∀ t d res, Event.call (.render t d) res ∈ (handler cfg env req).trace →
      cleanCertificateId req.certificateId = .normal d.id ∧ d.certificateId = d.id) ∧
    (∀ d res, Event.call (.toDataURL d) res ∈ (handler cfg env req).trace →
      req.qrCodeUrl.truthy = false →
      ∃ id, cleanCertificateId req.certificateId = .normal id ∧
        d = .string (utf16 "https://example.com/verify/" ++ id)) := by
  obtain ⟨-, -, -, hrender, hqr, -⟩ := handler_run cfg env req
  refine ⟨?_, ?_, ?_⟩
  · intro s hs
    refine ⟨replaceFirst 35 [] s, by simp [cleanCertificateId, hs], ?_, ?_, ?_⟩
    · rintro rest rfl
      simp [replaceFirst]
    · exact replaceFirst_of_not_mem 35 s
    · rintro pre post rfl hpre
      exact replaceFirst_append 35 pre post hpre
  · intro t d res h
    exact hrender d (mem_filterMap_renderData h)
  · intro d res h hq
    obtain ⟨id, hid, hd⟩ := hqr d (mem_filterMap_qrData h)
    exact ⟨id, hid, by simp [hd, verificationUrl, hq]⟩

/-- C3, at a concrete run: the sample request, whose id is `#123`. -/
theorem cleanCertificateId_removes_first_hash_witness :
    cleanCertificateId sampleRequest.certificateId = .normal (utf16 "123") ∧
    Event.call (.toDataURL (.string (utf16 "https://example.com/verify/123"))) .ok ∈
      (handler sampleConfig sampleEnv sampleRequest).trace := by
  have h := cleanCertificateId_removes_first_hash sampleConfig sampleEnv sampleRequest
  have hmem : Event.call (.toDataURL (.string (utf16 "https://example.com/verify/123"))) .ok ∈
      (handler sampleConfig sampleEnv sampleRequest).trace := by decide
  obtain ⟨id, hid, -⟩ := h.2.2 _ _ hmem rfl
  exact ⟨by decide, hmem⟩

/-- C4, the claim as stated fails: `##1` normalizes to `#1`, and `#1`
normalizes to `1`, so normalizing twice differs from normalizing once. -/
theorem normalize_idempotent_counterexample :
    cleanCertificateId (.string (utf16 "##1")) = .normal (utf16 "#1") ∧
    cleanCertificateId (.string (utf16 "#1")) = .normal (utf16 "1") ∧
    utf16 "1" ≠ utf16 "#1" := by
  decide

/-- C4 (as amended): normalizing the normalized id gives the normalized id again
exactly when the text of `certificateId` holds at most one `#`; `#123` and
`123` both normalize to `123`, which normalizes to itself. -/
theorem normalize_idempotent_iff (certificateId : JsonValue) (s : JSString)
    (hs : certificateId.toString = .normal s) :
    (∃ once twice,
      cleanCertificateId certificateId = .normal once ∧
      cleanCertificateId (.string once) = .normal twice ∧
      (twice = once ↔ s.count 35 ≤ 1)) ∧
    cleanCertificateId (.string (utf16 "#123")) = .normal (utf16 "123") ∧
    cleanCertificateId (.string (utf16 "123")) = .normal (utf16 "123") := by
  refine ⟨⟨replaceFirst 35 [] s, replaceFirst 35 [] (replaceFirst 35 [] s), ?_, ?_, ?_⟩,
    by decide, by decide⟩
  · simp [cleanCertificateId, hs]
  · simp [cleanCertificateId, JsonValue.toString]
  · exact replaceFirst_idempotent_iff 35 s

/-- C4, at a concrete input: the id `#123`. -/
theorem normalize_idempotent_iff_witness :
    JsonValue.toString (.string (utf16 "#123")) = .normal (utf16 "#123") ∧
    ∃ once twice,
      cleanCertificateId (.string (utf16 "#123")) = .normal once ∧
      cleanCertificateId (.string once) = .normal twice ∧
      (twice = once ↔ (utf16 "#123").count 35 ≤ 1) :=
  ⟨rfl, (normalize_idempotent_iff (.string (utf16 "#123")) (utf16 "#123") rfl).1⟩


/-! ## The verification URL (C5) -/

/-- C5, the claim as stated fails: with `qrCodeUrl` supplied as the empty string
the QR generator is handed the default URL, not the supplied value. -/
theorem supplied_qrCodeUrl_counterexample :
    emptyQrRequest.qrCodeUrl ≠ .undefined ∧
    Event.call (.toDataURL (.string (utf16 "https://example.com/verify/123"))) .ok ∈
      (handler sampleConfig sampleEnv emptyQrRequest).trace ∧
    JsonValue.string (utf16 "https://example.com/verify/123") ≠ emptyQrRequest.qrCodeUrl := by
  decide

/-- C5 (as amended): whatever is handed to the QR generator is `qrCodeUrl`
itself when `qrCodeUrl` is truthy (supplied and not empty), and
`https://example.com/verify/` followed by the normalized id when `qrCodeUrl` is
falsy, in particular when it is omitted. -/
theorem verification_url_handed_to_qr (cfg : Config) (env : Env) (req : CertificateRequest)
    (d : JsonValue) (res : Settled)
    (h : Event.call (.toDataURL d) res ∈ (handler cfg env req).trace) :
    (req.qrCodeUrl.truthy = true → d = req.qrCodeUrl) ∧
    (req.qrCodeUrl.truthy = false →
      ∃ id, cleanCertificateId req.certificateId = .normal id ∧
        d = .string (utf16 "https://example.com/verify/" ++ id)) ∧
    (req.qrCodeUrl = .undefined →
      ∃ id, cleanCertificateId req.certificateId = .normal id ∧
        d = .string (utf16 "https://example.com/verify/" ++ id)) := by
  obtain ⟨-, -, -, -, hqr, -⟩ := handler_run cfg env req
  obtain ⟨id, hid, hd⟩ := hqr d (mem_filterMap_qrData h)
  have hfalsy : req.qrCodeUrl.truthy = false →
      ∃ id, cleanCertificateId req.certificateId = .normal id ∧
        d = .string (utf16 "https://example.com/verify/" ++ id) :=
    fun hq => ⟨id, hid, by simp [hd, verificationUrl, hq]⟩
  refine ⟨fun hq => by simp [hd, verificationUrl, hq], hfalsy, fun hu => hfalsy ?_⟩
  rw [hu]
  rfl

/-- C5, at a concrete run: the sample request with a `qrCodeUrl` of its own. -/
theorem verification_url_handed_to_qr_witness :
    Event.call (.toDataURL (.string (utf16 "https://journal.example.org/c/123"))) .ok ∈
      (handler sampleConfig sampleEnv customQrRequest).trace ∧
    customQrRequest.qrCodeUrl.truthy = true ∧
    JsonValue.string (utf16 "https://journal.example.org/c/123") = customQrRequest.qrCodeUrl :=
  ⟨by decide, by decide,
    (verification_url_handed_to_qr sampleConfig sampleEnv customQrRequest
      (.string (utf16 "https://journal.example.org/c/123")) .ok (by decide)).1 (by decide)⟩


/-! ## Failures and the browser (C6, C7, C8) -/

/-- C6: when a step of a run fails (a file read, the QR generation, the template
rendering, the browser launch, the page set-up, the content load, the image
wait or the PDF export), nothing but clean-up follows the failed call in the
trace, `browser.close()` is among that clean-up if the launch had succeeded, and
the response is the 500 JSON object whose `message` is the error of the failed
step, so not the PDF. -/
theorem failed_step_aborts_with_500 (cfg : Config) (env : Env) (req : CertificateRequest)
    (op : Op) (e : JsError)
    (hfail : Event.call op (.failed e) ∈ (handler cfg env req).trace)
    (hstep : op.isStep = true) :
    ∃ before after,
      (handler cfg env req).trace = before ++ Event.call op (.failed e) :: after ∧
      (∀ ev ∈ after, ev.isCleanup = true) ∧
      (Event.call .launch .ok ∈ before → ∃ res, Event.call .close res ∈ after) ∧
      (handler cfg env req).response =
        some { status := 500
               headers := []
               body := .json [(utf16 "error", utf16 "Failed to generate certificate"),
                              (utf16 "message", e.message)] } ∧
      ∀ r bytes, (handler cfg env req).response = some r → r.body ≠ .buffer bytes := by
  obtain ⟨before, after, htrace, hafter, hclose, hresp⟩ :=
    failed_step_split cfg env req op e hfail hstep
  refine ⟨before, after, htrace, hafter, hclose, hresp, ?_⟩
  intro r bytes hr
  rw [hresp] at hr
  cases hr
  simp [failureResponse]

/-- C6, at a concrete run: the PDF export fails on the sample host. -/
theorem failed_step_aborts_with_500_witness :
    Event.call .pdf (.failed ⟨utf16 "Printing failed"⟩) ∈
      (handler sampleConfig pdfFailureEnv sampleRequest).trace ∧
    Op.pdf.isStep = true ∧
    (handler sampleConfig pdfFailureEnv sampleRequest).response =
      some (failureResponse ⟨utf16 "Printing failed"⟩) ∧
    Event.call .close .ok ∈ (handler sampleConfig pdfFailureEnv sampleRequest).trace := by
  have hmem : Event.call .pdf (.failed ⟨utf16 "Printing failed"⟩) ∈
      (handler sampleConfig pdfFailureEnv sampleRequest).trace := by decide
  obtain ⟨before, after, -, -, -, hresp, -⟩ :=
    failed_step_aborts_with_500 sampleConfig pdfFailureEnv sampleRequest .pdf
      ⟨utf16 "Printing failed"⟩ hmem rfl
  exact ⟨hmem, rfl, hresp, by decide⟩

/-- C7, the claim as stated fails: when the template read fails the response is
the 500 JSON error, but `browser.close()` is called zero times, not once. -/
theorem close_once_counterexample :
    Event.call (.readFile sampleConfig.CERTIFICATE_TEMPLATE_PATH true)
        (.failed ⟨utf16 "ENOENT: no such file or directory"⟩) ∈
      (handler sampleConfig templateFailureEnv sampleRequest).trace ∧
    (handler sampleConfig templateFailureEnv sampleRequest).response =
      some (failureResponse ⟨utf16 "ENOENT: no such file or directory"⟩) ∧
    closeCount (handler sampleConfig templateFailureEnv sampleRequest).trace = 0 ∧
    closeCount (handler sampleConfig templateFailureEnv sampleRequest).trace ≠ 1 := by
  decide

/-- C7 (as amended): a run in which the template read fails answers the 500 JSON
error and never calls `browser.close()`, no browser having been launched; a run
in which the content load or the PDF export fails answers the 500 JSON error
and calls `browser.close()` exactly once. -/
theorem close_calls_on_failure (cfg : Config) (env : Env) (req : CertificateRequest)
    (e : JsError) :
    (∀ path, Event.call (.readFile path true) (.failed e) ∈ (handler cfg env req).trace →
      (handler cfg env req).response = some (failureResponse e) ∧
      (failureResponse e).status = 500 ∧
      closeCount (handler cfg env req).trace = 0) ∧
    (∀ html timeout,
      Event.call (.setContent html timeout) (.failed e) ∈ (handler cfg env req).trace →
      (handler cfg env req).response = some (failureResponse e) ∧
      (failureResponse e).status = 500 ∧
      closeCount (handler cfg env req).trace = 1) ∧
    (Event.call .pdf (.failed e) ∈ (handler cfg env req).trace →
      (handler cfg env req).response = some (failureResponse e) ∧
      (failureResponse e).status = 500 ∧
      closeCount (handler cfg env req).trace = 1) := by
  obtain ⟨-, -, -, -, -, -, -, hread, hcontent, hpdf⟩ := handler_run cfg env req
  refine ⟨?_, ?_, ?_⟩
  · intro path h
    obtain ⟨_, _, -, -, -, hresp⟩ := failed_step_split cfg env req _ e h rfl
    exact ⟨hresp, rfl, hread path e h⟩
  · intro html timeout h
    obtain ⟨_, _, -, -, -, hresp⟩ := failed_step_split cfg env req _ e h rfl
    exact ⟨hresp, rfl, hcontent html timeout e h⟩
  · intro h
    obtain ⟨_, _, -, -, -, hresp⟩ := failed_step_split cfg env req _ e h rfl
    exact ⟨hresp, rfl, hpdf e h⟩

/-- C7, at a concrete run: the content load times out on the sample host. -/
theorem close_calls_on_failure_witness :
    (handler sampleConfig contentLoadFailureEnv sampleRequest).response =
      some (failureResponse ⟨utf16 "Navigation timeout of 30000 ms exceeded"⟩) ∧
    closeCount (handler sampleConfig contentLoadFailureEnv sampleRequest).trace = 1 := by
  have h := (close_calls_on_failure sampleConfig contentLoadFailureEnv sampleRequest
    ⟨utf16 "Navigation timeout of 30000 ms exceeded"⟩).2.1
    (utf16 "<html>certificate</html>") 30000 (by decide)
  exact ⟨h.1, h.2.2⟩

/-- C8, the code at the failing input: every step succeeds and the first
`browser.close()` throws. With a close that succeeds the response is the PDF;
with the close that throws the handler calls `browser.close()` a second time
and answers 500 with the message of the close error. -/
theorem close_failure_reaches_caller :
    (handler sampleConfig sampleEnv sampleRequest).response =
      some (pdfResponse (utf16 "J_rgen_O_Neil.pdf") [37, 80, 68, 70]) ∧
    (handler sampleConfig closeFailureEnv sampleRequest).response =
      some (failureResponse ⟨utf16 "Target closed"⟩) ∧
    closeCount (handler sampleConfig closeFailureEnv sampleRequest).trace = 2 ∧
    (handler sampleConfig pdfAndCloseFailureEnv sampleRequest).response =
      (handler sampleConfig pdfFailureEnv sampleRequest).response := by
  decide


/-! ## Date formatting (C9) -/

/-- C9, the claim as stated fails: for an invalid date, such as a date string
that does not parse, `formatDate` returns `NaN.NaN.NaN`; for a date in the year
999 it returns a three-digit year; neither is of the pattern `DD.MM.YYYY`. And
the day is the local one: on a host where `2024-03-05` is 4 March in local time
the result is `04.03.2024`. -/
theorem formatDate_pattern_counterexample :
    formatDate sampleEnv.clock (.dateObject .invalid) = .normal (utf16 "NaN.NaN.NaN") ∧
    formatDate sampleEnv.clock (.value (.string (utf16 "not a date"))) =
      .normal (utf16 "NaN.NaN.NaN") ∧
    isDDMMYYYY (utf16 "NaN.NaN.NaN") = false ∧
    formatDate sampleEnv.clock (.dateObject (.valid 15 5 999)) = .normal (utf16 "15.06.999") ∧
    isDDMMYYYY (utf16 "15.06.999") = false ∧
    formatDate westOfGreenwichClock (.value (.string (utf16 "2024-03-05"))) =
      .normal (utf16 "04.03.2024") := by
  decide

/-- C9 (as amended): for a valid date whose local-time year has four digits,
`formatDate` returns the two-digit day of the month, `.`, the two-digit month
number (January is 01), `.`, and the year, which is of the pattern
`DD.MM.YYYY`, day, month and year being those of the host's local time; a falsy
argument stands for the current date and a date string for the date it parses
to; the input `2024-03-05`, when the host reads it as 5 March 2024, gives
`05.03.2024`. -/
theorem formatDate_valid_four_digit_year (clock : Clock) (day month year : Nat)
    (hday : 1 ≤ day ∧ day ≤ 31) (hmonth : month ≤ 11) (hyear : 1000 ≤ year ∧ year ≤ 9999) :
    formatDate clock (.dateObject (.valid day month year)) =
      .normal [48 + day / 10, 48 + day % 10, 46, 48 + (month + 1) / 10, 48 + (month + 1) % 10,
        46, 48 + year / 1000, 48 + year / 100 % 10, 48 + year / 10 % 10, 48 + year % 10] ∧
    isDDMMYYYY [48 + day / 10, 48 + day % 10, 46, 48 + (month + 1) / 10, 48 + (month + 1) % 10,
        46, 48 + year / 1000, 48 + year / 100 % 10, 48 + year / 10 % 10, 48 + year % 10] = true ∧
    (∀ v : JsonValue, v.truthy = false →
      formatDate clock (.value v) = formatDate clock (.dateObject clock.now)) ∧
    (∀ s : JSString, s ≠ [] →
      formatDate clock (.value (.string s)) = formatDate clock (.dateObject (clock.parse s))) ∧
    (clock.parse (utf16 "2024-03-05") = .valid 5 2 2024 →
      formatDate clock (.value (.string (utf16 "2024-03-05"))) =
        .normal (utf16 "05.03.2024")) := by
  have hparse : ∀ s : JSString, s ≠ [] →
      formatDate clock (.value (.string s)) = formatDate clock (.dateObject (clock.parse s)) := by
    intro s hs
    have : JsonValue.truthy (.string s) = true := by
      cases s with
      | nil => exact absurd rfl hs
      | cons c cs => rfl
    simp [formatDate, this]
  refine ⟨?_, ?_, ?_, hparse, ?_⟩
  rotate_right
  · intro h
    rw [hparse _ (by decide), h]
    rfl
  · have hd : ¬ ((day : Int) < 0) := by omega
    have hm : ¬ ((month : Int) + 1 < 0) := by omega
    have hy : ¬ ((year : Int) < 0) := by omega
    have hm2 : ((month : Int) + 1).natAbs = month + 1 := by omega
    simp only [formatDate, JSDate.getDate, JSDate.getMonth, JSDate.getFullYear, JsNumber.succ,
      JsNumber.toJSString, hd, hm, hy, if_false, Int.natAbs_ofNat, hm2]
    rw [padStart_two_digits day (by omega), padStart_two_digits (month + 1) (by omega),
      toDigits_four year hyear.1 (by omega)]
    rfl
  · simp only [isDDMMYYYY, List.all_cons, List.all_nil, Bool.and_true, Bool.and_eq_true,
      decide_eq_true_eq]
    and_intros <;> first | trivial | omega
  · intro v hv
    simp [formatDate, hv]

/-- C9, at a concrete input: 5 March 2024. -/
theorem formatDate_valid_four_digit_year_witness :
    (1 ≤ 5 ∧ 5 ≤ 31) ∧ 2 ≤ 11 ∧ (1000 ≤ 2024 ∧ 2024 ≤ 9999) ∧
    formatDate sampleEnv.clock (.dateObject (.valid 5 2 2024)) =
      .normal [48, 53, 46, 48, 51, 46, 50, 48, 50, 52] ∧
    utf16 "05.03.2024" = [48, 53, 46, 48, 51, 46, 50, 48, 50, 52] :=
  ⟨by decide, by decide, by decide,
    (formatDate_valid_four_digit_year sampleEnv.clock 5 2 2024 (by decide) (by decide)
      (by decide)).1, by decide⟩


/-! ## CORS (C10) -/

/-- C10, the claim as stated fails: an empty `Origin` header is in the
allowed-origins list that a trailing comma produces, yet no
`Access-Control-Allow-Origin` header is set for it. -/
theorem cors_reflection_counterexample :
    emptyOriginRequest.origin = some [] ∧
    [] ∈ ALLOWED_ORIGINS trailingCommaEnv ∧
    headerValue (utf16 "Access-Control-Allow-Origin")
      (corsMiddleware trailingCommaEnv emptyOriginRequest).headers = none := by
  decide

/-- C10 (as amended): the middleware sets `Access-Control-Allow-Origin` to the
request's origin when that origin is not empty and is in the allowed-origins
list; for any other origin, an empty one included, and for no origin, it sets
`*` when `NODE_ENV` is `development` and sets no such header otherwise; an
`OPTIONS` request is answered with `sendStatus(200)` and `next()` is not
called, any other request is passed on. -/
theorem cors_middleware_spec (penv : ProcessEnv) (req : CorsRequest) :
    (∀ origin, req.origin = some origin → origin ≠ [] → origin ∈ ALLOWED_ORIGINS penv →
      headerValue (utf16 "Access-Control-Allow-Origin") (corsMiddleware penv req).headers =
        some origin) ∧
    ((∀ origin, req.origin = some origin → origin = [] ∨ origin ∉ ALLOWED_ORIGINS penv) →
      headerValue (utf16 "Access-Control-Allow-Origin") (corsMiddleware penv req).headers =
        if penv.NODE_ENV = some (utf16 "development") then some (utf16 "*") else none) ∧
    (req.method = utf16 "OPTIONS" → (corsMiddleware penv req).passage = .sendStatus 200) ∧
    (req.method ≠ utf16 "OPTIONS" → (corsMiddleware penv req).passage = .next) := by
  have hm : utf16 "Access-Control-Allow-Methods" ≠ utf16 "Access-Control-Allow-Origin" := by
    decide
  have hh : utf16 "Access-Control-Allow-Headers" ≠ utf16 "Access-Control-Allow-Origin" := by
    decide
  have hc : utf16 "Access-Control-Allow-Credentials" ≠ utf16 "Access-Control-Allow-Origin" := by
    decide
  refine ⟨?_, ?_, ?_, ?_⟩
  · intro origin ho hne hmem
    have hne2 : origin.isEmpty = false := by
      cases origin with
      | nil => exact absurd rfl hne
      | cons c cs => rfl
    simp [corsMiddleware, ho, hne2, hmem, headerValue, List.find?]
  · intro hall
    cases ho : req.origin with
    | none =>
      by_cases hd : penv.NODE_ENV = some (utf16 "development") <;>
        simp [corsMiddleware, ho, hd, headerValue, List.find?, hm, hh, hc]
    | some origin =>
      rcases hall origin ho with rfl | hnot
      · by_cases hd : penv.NODE_ENV = some (utf16 "development") <;>
          simp [corsMiddleware, ho, hd, headerValue, List.find?, hm, hh, hc]
      · by_cases hd : penv.NODE_ENV = some (utf16 "development") <;>
          simp [corsMiddleware, ho, hnot, hd, headerValue, List.find?, hm, hh, hc]
  · intro h
    simp [corsMiddleware, h]
  · intro h
    simp [corsMiddleware, h]

/-- C10, at a concrete input: a preflight request from an allowed origin. -/
theorem cors_middleware_spec_witness :
    headerValue (utf16 "Access-Control-Allow-Origin")
        (corsMiddleware trailingCommaEnv preflightRequest).headers =
      some (utf16 "https://journal.example.org") ∧
    (corsMiddleware trailingCommaEnv preflightRequest).passage = .sendStatus 200 :=
  ⟨(cors_middleware_spec trailingCommaEnv preflightRequest).1 _ rfl (by decide) (by decide),
    (cors_middleware_spec trailingCommaEnv preflightRequest).2.2.1 rfl⟩

end CertificateServer
